import Mathlib

/-!
# WhatsApp-Book-Delivery: verification of the order-lifecycle core

A shallow embedding, in Lean 4, of the order-lifecycle core of the
WhatsApp-Book-Delivery repository: the weight computation
(`supabase/functions/compute-weights/index.ts`), the order assembler
(`supabase/functions/create-order/index.ts`), the Razorpay payment webhook
(`src/lib/utils.ts`, `Deno.serve` handler), the Delhivery courier webhook and
the WhatsApp conversation state machine (edge-function sources).

Database tables become Lean lists of records, the handlers become pure
functions from a database state (plus the inbound payload and the outcomes of
external calls, which are passed in as parameters) to a new database state
plus the observable effects (HTTP result, outbound notifications, triggered
downstream calls).  JavaScript `number` arithmetic on the weight path is
embedded as exact arithmetic over `ℚ`/`ℤ` (`Math.round`/`Math.ceil` become
`jsRound`/`jsCeil`); all quantities involved are small integers, where IEEE
doubles are exact.
-/

/-- JS `Math.round q` for the non-negative quantities that occur here:
round half up, `⌊q + 1/2⌋`. -/
def jsRound (q : ℚ) : ℤ := ⌊q + 1/2⌋

/-- JS `Math.ceil`. -/
def jsCeil (q : ℚ) : ℤ := ⌈q⌉

/-- JS `x || d` applied to a numeric setting looked up from the settings
table: `none` (key absent) and `0` (falsy) both fall back to the default. -/
def jsOr (v : Option Nat) (d : Nat) : Nat :=
  match v with
  | some n => if n = 0 then d else n
  | none => d

/-! ## compute-weights (`supabase/functions/compute-weights/index.ts`) -/

/-- One row of the `order_items ⋈ items` fetch in compute-weights:
`qty` from the order item, weight and dimensions from the catalog item
(dimensions are nullable columns). -/
structure WeightItem where
  weight_grams : Nat
  length_cm : Option Nat
  width_cm : Option Nat
  height_cm : Option Nat
  qty : Nat
  deriving Repr, DecidableEq

/-- The three settings keys read by compute-weights
(`default_packaging_weight_grams`, `volumetric_divisor`,
`weight_rounding_grams`), each possibly absent. -/
structure WeightSettings where
  default_packaging_weight_grams : Option Nat
  volumetric_divisor : Option Nat
  weight_rounding_grams : Option Nat
  deriving Repr, DecidableEq

/-- `settingsMap.default_packaging_weight_grams || 50`. -/
def effPackaging (s : WeightSettings) : Nat := jsOr s.default_packaging_weight_grams 50

/-- `settingsMap.volumetric_divisor || 5000`. -/
def effDivisor (s : WeightSettings) : Nat := jsOr s.volumetric_divisor 5000

/-- `settingsMap.weight_rounding_grams || 500`. -/
def effRounding (s : WeightSettings) : Nat := jsOr s.weight_rounding_grams 500

/-- `const packageCount = 1`. -/
def packageCount : Nat := 1

/-- The `totalActualWeight` accumulator of the item loop:
`totalActualWeight += item.weight_grams * orderItem.qty`. -/
def totalActualWeight (items : List WeightItem) : Nat :=
  items.foldl (fun w it => w + it.weight_grams * it.qty) 0

/-- The `maxLength` accumulator: `if (item.length_cm) maxLength =
Math.max(maxLength, item.length_cm)` (null and 0 are falsy and skipped). -/
def maxLength (items : List WeightItem) : Nat :=
  items.foldl (fun m it => if it.length_cm.getD 0 ≠ 0 then max m (it.length_cm.getD 0) else m) 0

/-- The `maxWidth` accumulator of the same loop. -/
def maxWidth (items : List WeightItem) : Nat :=
  items.foldl (fun m it => if it.width_cm.getD 0 ≠ 0 then max m (it.width_cm.getD 0) else m) 0

/-- The `maxHeight` accumulator of the same loop. -/
def maxHeight (items : List WeightItem) : Nat :=
  items.foldl (fun m it => if it.height_cm.getD 0 ≠ 0 then max m (it.height_cm.getD 0) else m) 0

/-- `const actualWeight = totalActualWeight + (packagingWeight * packageCount)`. -/
def actualWeight (items : List WeightItem) (s : WeightSettings) : Nat :=
  totalActualWeight items + effPackaging s * packageCount

/-- `volumetricGrams`: 0 unless all three maxima are positive, otherwise
`Math.round(volumeCm3 / volumetricDivisor * 1000)`. -/
def volumetricGrams (items : List WeightItem) (s : WeightSettings) : ℤ :=
  if 0 < maxLength items ∧ 0 < maxWidth items ∧ 0 < maxHeight items then
    jsRound (((maxLength items * maxWidth items * maxHeight items : Nat) : ℚ)
      / (effDivisor s : ℚ) * 1000)
  else 0

/-- `let billedWeight = Math.max(actualWeight, volumetricGrams)`. -/
def billedMax (items : List WeightItem) (s : WeightSettings) : ℤ :=
  max (actualWeight items s : ℤ) (volumetricGrams items s)

/-- `billedWeight = Math.ceil(billedWeight / weightRounding) * weightRounding`. -/
def billedWeight (items : List WeightItem) (s : WeightSettings) : ℤ :=
  jsCeil ((billedMax items s : ℚ) / (effRounding s : ℚ)) * (effRounding s : ℤ)

/-- The response body of compute-weights (and the fields written back to the
order row and the parcel row). -/
structure WeightResult where
  package_count : Nat
  actual_weight_grams : Nat
  volumetric_grams : ℤ
  billed_weight_grams : ℤ
  length_cm : Nat
  width_cm : Nat
  height_cm : Nat
  deriving Repr, DecidableEq

/-- The whole compute-weights computation for one order's joined item rows
and the settings table. -/
def computeWeights (items : List WeightItem) (s : WeightSettings) : WeightResult :=
  { package_count := packageCount
    actual_weight_grams := actualWeight items s
    volumetric_grams := volumetricGrams items s
    billed_weight_grams := billedWeight items s
    length_cm := maxLength items
    width_cm := maxWidth items
    height_cm := maxHeight items }

/-! ### Bridge lemmas between the loop accumulators and the closed forms -/

theorem foldl_add_eq_sum (f : WeightItem → Nat) (l : List WeightItem) (a : Nat) :
    l.foldl (fun w it => w + f it) a = a + (l.map f).sum := by
  induction l generalizing a with
  | nil => simp
  | cons x xs ih => simp [ih, Nat.add_assoc]

theorem foldl_if_max_eq (f : WeightItem → Nat) (l : List WeightItem) (a : Nat) :
    l.foldl (fun m it => if f it ≠ 0 then max m (f it) else m) a
      = max a ((l.map f).foldr max 0) := by
  induction l generalizing a with
  | nil => simp
  | cons x xs ih =>
    rw [List.foldl_cons, List.map_cons, List.foldr_cons, ih]
    by_cases hx : f x = 0
    · simp [hx]
    · simp only [hx, ne_eq, not_false_iff, if_true]
      omega

theorem totalActualWeight_eq (items : List WeightItem) :
    totalActualWeight items = (items.map (fun it => it.weight_grams * it.qty)).sum := by
  simpa using foldl_add_eq_sum (fun it => it.weight_grams * it.qty) items 0

theorem maxLength_eq (items : List WeightItem) :
    maxLength items = ((items.map (fun it => it.length_cm.getD 0)).foldr max 0) := by
  unfold maxLength
  rw [foldl_if_max_eq]
  exact Nat.zero_max _

theorem maxWidth_eq (items : List WeightItem) :
    maxWidth items = ((items.map (fun it => it.width_cm.getD 0)).foldr max 0) := by
  unfold maxWidth
  rw [foldl_if_max_eq]
  exact Nat.zero_max _

theorem maxHeight_eq (items : List WeightItem) :
    maxHeight items = ((items.map (fun it => it.height_cm.getD 0)).foldr max 0) := by
  unfold maxHeight
  rw [foldl_if_max_eq]
  exact Nat.zero_max _

theorem volumetricGrams_closed (items : List WeightItem) (s : WeightSettings) :
    volumetricGrams items s
      = jsRound (((maxLength items * maxWidth items * maxHeight items : Nat) : ℚ)
          / (effDivisor s : ℚ) * 1000) := by
  unfold volumetricGrams
  split
  · rfl
  · rename_i h
    have hzero : maxLength items * maxWidth items * maxHeight items = 0 := by
      rcases Nat.eq_zero_or_pos (maxLength items) with h1 | h1
      · simp [h1]
      rcases Nat.eq_zero_or_pos (maxWidth items) with h2 | h2
      · simp [h2]
      rcases Nat.eq_zero_or_pos (maxHeight items) with h3 | h3
      · simp [h3]
      exact absurd ⟨h1, h2, h3⟩ h
    rw [hzero]
    simp only [jsRound, Nat.cast_zero, zero_div, zero_mul, zero_add]
    symm
    rw [Int.floor_eq_zero_iff]
    norm_num [Set.mem_Ico]

/-! ## create-order (`supabase/functions/create-order/index.ts`) -/

/-- A row of the `schools` table as selected by create-order
(`id`, filtered on `code_4digit` and `active`). -/
structure SchoolRow where
  id : Nat
  code_4digit : String
  active : Bool
  deriving Repr, DecidableEq

/-- A row of the `items` table as selected by create-order
(`id, price_paise, stock`). -/
structure CatalogItem where
  id : Nat
  price_paise : Nat
  stock : Nat
  deriving Repr, DecidableEq

/-- One entry of the request's `items` array. -/
structure ReqItem where
  item_id : Nat
  qty : Nat
  deriving Repr, DecidableEq

/-- The create-order request body (`CreateOrderRequest` in the source;
optional fields are nullable). -/
structure CreateOrderRequest where
  school_code : String
  class_id : Nat
  category : String
  items : List ReqItem
  delivery_type : String
  parent_phone : String
  parent_name : Option String
  address : Option String
  deriving Repr, DecidableEq

/-- A persisted row of the `orders` table (the columns the core reads or
writes; timestamps are modelled as presence flags). -/
structure OrderRow where
  id : Nat
  school_id : Nat
  class_id : Nat
  parent_phone : String
  parent_name : Option String
  delivery_type : String
  delivery_address : Option String
  delivery_charge_paise : Nat
  items_total_paise : Nat
  total_amount_paise : Nat
  payment_status : String
  status : String
  payment_id : Option String
  payment_link : Option String
  paid_at_set : Bool
  courier_awb : Option String
  deriving Repr, DecidableEq

/-- A persisted row of the `order_items` table. -/
structure OrderItemRow where
  order_id : Nat
  item_id : Nat
  qty : Nat
  unit_price_paise : Nat
  deriving Repr, DecidableEq

/-- The database state create-order reads and writes.  `nextOrderId` models
the generated order id of the next insert.  The settings table is a list of
`(id, numeric value)` rows. -/
structure CODb where
  schools : List SchoolRow
  settings : List (String × Nat)
  items : List CatalogItem
  nextOrderId : Nat
  orders : List OrderRow
  order_items : List OrderItemRow
  deriving Repr, DecidableEq

/-- The school lookup: `.eq("code_4digit", school_code).eq("active", true)`. -/
def findActiveSchool (db : CODb) (code : String) : Option SchoolRow :=
  db.schools.find? (fun s => s.code_4digit == code && s.active)

/-- Lookup of one settings row by id. -/
def settingsLookup (db : CODb) (key : String) : Option Nat :=
  (db.settings.find? (fun kv => kv.1 == key)).map (fun kv => kv.2)

/-- `settingsMap.school_delivery_charge_paise ?? 5000` /
`settingsMap.home_delivery_charge_paise ?? 15000` (nullish coalescing:
only an absent key falls back). -/
def deliveryCharge (db : CODb) (delivery_type : String) : Nat :=
  if delivery_type == "school" then (settingsLookup db "school_delivery_charge_paise").getD 5000
  else (settingsLookup db "home_delivery_charge_paise").getD 15000

/-- An order item prepared by the validation loop (`orderItems.push(...)`),
before the order id is attached. -/
structure OrderItemDraft where
  item_id : Nat
  qty : Nat
  unit_price_paise : Nat
  deriving Repr, DecidableEq

/-- Failure of the per-item validation loop. -/
inductive ItemCheckError where
  | notFound (item_id : Nat)
  | insufficientStock (item_id : Nat)
  deriving Repr, DecidableEq

/-- The `for (const orderItem of items)` loop: look each requested id up in
the fetched catalog rows (fetching `.in("id", itemIds)` and then `find` by id
is the same as `find` by id on the whole table), fail `Item ... not found` on
a missing id or `Insufficient stock` when `item.stock < orderItem.qty`,
otherwise accumulate `items_total_paise += price_paise * qty` and snapshot
the unit price.  The loop stops at the first failing item. -/
def buildOrderItems (catalog : List CatalogItem) :
    List ReqItem → Except ItemCheckError (Nat × List OrderItemDraft)
  | [] => .ok (0, [])
  | r :: rest =>
    match catalog.find? (fun i => i.id == r.item_id) with
    | none => .error (.notFound r.item_id)
    | some item =>
      if item.stock < r.qty then .error (.insufficientStock r.item_id)
      else
        match buildOrderItems catalog rest with
        | .error e => .error e
        | .ok (sub, drafts) =>
          .ok (item.price_paise * r.qty + sub, ⟨r.item_id, r.qty, item.price_paise⟩ :: drafts)

/-- Outcome of a Razorpay payment-link creation (external call): the link id
(`link_xxx`) and the short url.  `none` models unconfigured keys or a failed
call, both of which skip the payment-id update. -/
structure PaymentLinkInfo where
  link_id : String
  short_url : String
  deriving Repr, DecidableEq

/-- The HTTP outcome of create-order. -/
inductive COResult where
  | ok (order_id : Nat) (total_amount_paise : Nat) (payment_link : Option String)
  | invalidSchool
  | itemNotFound (item_id : Nat)
  | insufficientStock (item_id : Nat)
  | serverError
  deriving Repr, DecidableEq

/-- The `orders` insert of step 5: the new row, with `payment_status` and
`status` both `"pending"`, totals computed from the validated items and the
delivery charge, and the generated id `db.nextOrderId`. -/
def pendingOrder (db : CODb) (req : CreateOrderRequest) (school : SchoolRow)
    (items_total_paise : Nat) : OrderRow :=
  { id := db.nextOrderId
    school_id := school.id
    class_id := req.class_id
    parent_phone := req.parent_phone
    parent_name := req.parent_name
    delivery_type := req.delivery_type
    delivery_address := req.address
    delivery_charge_paise := deliveryCharge db req.delivery_type
    items_total_paise := items_total_paise
    total_amount_paise := items_total_paise + deliveryCharge db req.delivery_type
    payment_status := "pending"
    status := "pending"
    payment_id := none
    payment_link := none
    paid_at_set := false
    courier_awb := none }

/-- Step 6: `orderItems.map(it => ({ ...it, order_id: order.id }))`. -/
def attachOrderId (order_id : Nat) (drafts : List OrderItemDraft) : List OrderItemRow :=
  drafts.map (fun d => OrderItemRow.mk order_id d.item_id d.qty d.unit_price_paise)

/-- Step 8's order update: save `payment_id` (the `link_xxx` id) and
`payment_link` on the order row. -/
def applyPaymentLink (db : CODb) (order_id : Nat) (link : PaymentLinkInfo) : CODb :=
  { db with orders := db.orders.map (fun o =>
      if o.id == order_id then
        { o with payment_id := some link.link_id, payment_link := some link.short_url }
      else o) }

/-- The create-order handler.  `itemsInsertFails` injects a failure of the
`order_items` insert (step 6), which the source code turns into a thrown
error and a 500 response; `linkResult` is the outcome of the external
payment-link call (step 8).  The best-effort compute-weights trigger
(step 7) is a separate function invocation with no effect on the rows
created here and is not inlined. -/
def createOrder (db : CODb) (req : CreateOrderRequest)
    (itemsInsertFails : Bool) (linkResult : Option PaymentLinkInfo) :
    CODb × COResult :=
  match findActiveSchool db req.school_code with
  | none => (db, .invalidSchool)
  | some school =>
    match buildOrderItems db.items req.items with
    | .error (.notFound i) => (db, .itemNotFound i)
    | .error (.insufficientStock i) => (db, .insufficientStock i)
    | .ok (items_total_paise, drafts) =>
      let order : OrderRow := pendingOrder db req school items_total_paise
      let db1 : CODb :=
        { db with orders := db.orders ++ [order], nextOrderId := db.nextOrderId + 1 }
      if itemsInsertFails then (db1, .serverError)
      else
        let db2 : CODb :=
          { db1 with order_items := db1.order_items ++ attachOrderId order.id drafts }
        match linkResult with
        | none => (db2, .ok order.id order.total_amount_paise none)
        | some link =>
          (applyPaymentLink db2 order.id link,
           .ok order.id order.total_amount_paise (some link.short_url))

/-- A later catalog price change: overwrite `price_paise` of one item. -/
def updateCatalogPrice (db : CODb) (item_id new_price : Nat) : CODb :=
  { db with items := db.items.map (fun it =>
      if it.id == item_id then { it with price_paise := new_price } else it) }

/-! ## Claims C3 and C4: the weight computation -/

theorem le_jsCeil_mul (b : ℤ) (r : Nat) (hr : 0 < r) :
    b ≤ jsCeil ((b : ℚ) / (r : ℚ)) * (r : ℤ) := by
  have hrQ : (0:ℚ) < (r:ℚ) := by exact_mod_cast hr
  have h1 : ((b:ℚ) / r) ≤ (⌈(b:ℚ)/r⌉ : ℚ) := Int.le_ceil _
  have h2 : ((b:ℚ)/r) * r ≤ (⌈(b:ℚ)/r⌉ : ℚ) * r :=
    mul_le_mul_of_nonneg_right h1 (le_of_lt hrQ)
  rw [div_mul_cancel₀ _ (ne_of_gt hrQ)] at h2
  unfold jsCeil
  exact_mod_cast h2

/-- C3: for every order, the weight computation returns
`actual = Σ(item.weight_grams × qty) + packaging_weight × package_count`
with `package_count = 1`,
`volumetric = round(maxL × maxW × maxH / divisor × 1000)` where each
maximum is taken per dimension across the order's items (not a sum), and
`billed = ceil(max(actual, volumetric) / rounding_unit) × rounding_unit`;
and on one item of 200 g with dimensions 20×15×2 cm, qty 2, packaging 50 g,
divisor 5000 and rounding 500 it returns actual 450 g, volumetric 120 g,
billed 500 g. -/
theorem computeWeights_formulas_and_scenario :
    (∀ (items : List WeightItem) (s : WeightSettings),
        (computeWeights items s).actual_weight_grams
          = (items.map (fun it => it.weight_grams * it.qty)).sum
              + effPackaging s * packageCount
      ∧ (computeWeights items s).volumetric_grams
          = jsRound (((((items.map (fun it => it.length_cm.getD 0)).foldr max 0)
              * ((items.map (fun it => it.width_cm.getD 0)).foldr max 0)
              * ((items.map (fun it => it.height_cm.getD 0)).foldr max 0) : Nat) : ℚ)
              / (effDivisor s : ℚ) * 1000)
      ∧ (computeWeights items s).billed_weight_grams
          = jsCeil (((max ((computeWeights items s).actual_weight_grams : ℤ)
              ((computeWeights items s).volumetric_grams) : ℤ) : ℚ) / (effRounding s : ℚ))
              * (effRounding s : ℤ))
  ∧ packageCount = 1
  ∧ computeWeights [⟨200, some 20, some 15, some 2, 2⟩] ⟨some 50, some 5000, some 500⟩
      = ⟨1, 450, 120, 500, 20, 15, 2⟩ := by
  have hvol : volumetricGrams [⟨200, some 20, some 15, some 2, 2⟩] ⟨some 50, some 5000, some 500⟩
      = 120 := by
    have hL : maxLength [⟨200, some 20, some 15, some 2, 2⟩] = 20 := by decide
    have hW : maxWidth [⟨200, some 20, some 15, some 2, 2⟩] = 15 := by decide
    have hH : maxHeight [⟨200, some 20, some 15, some 2, 2⟩] = 2 := by decide
    have hd : effDivisor ⟨some 50, some 5000, some 500⟩ = 5000 := by decide
    unfold volumetricGrams
    rw [hL, hW, hH, hd, if_pos (by norm_num)]
    unfold jsRound
    rw [Int.floor_eq_iff]
    push_cast
    norm_num
  have hact : actualWeight [⟨200, some 20, some 15, some 2, 2⟩] ⟨some 50, some 5000, some 500⟩
      = 450 := by decide
  have hbil : billedWeight [⟨200, some 20, some 15, some 2, 2⟩] ⟨some 50, some 5000, some 500⟩
      = 500 := by
    unfold billedWeight billedMax
    rw [hvol, hact]
    have hr : effRounding ⟨some 50, some 5000, some 500⟩ = 500 := by decide
    rw [hr]
    have hmax : (max ((450:Nat) : ℤ) (120:ℤ)) = (450:ℤ) := by decide
    rw [hmax]
    have hceil : jsCeil (((450:ℤ) : ℚ) / ((500:Nat) : ℚ)) = 1 := by
      unfold jsCeil
      rw [Int.ceil_eq_iff]
      push_cast
      norm_num
    rw [hceil]
    norm_num
  refine ⟨fun items s => ⟨?_, ?_, ?_⟩, rfl, ?_⟩
  · show actualWeight items s = _
    unfold actualWeight
    rw [totalActualWeight_eq]
  · show volumetricGrams items s = _
    rw [volumetricGrams_closed, maxLength_eq, maxWidth_eq, maxHeight_eq]
  · rfl
  · show (⟨packageCount, actualWeight _ _, volumetricGrams _ _, billedWeight _ _,
      maxLength _, maxWidth _, maxHeight _⟩ : WeightResult) = _
    rw [hvol, hact, hbil]
    decide

/-- C4: for every order and every positive rounding unit, the billed weight
is ≥ the actual weight, ≥ the volumetric weight, and an integer multiple of
the rounding unit. -/
theorem billedWeight_bounds (items : List WeightItem) (p d : Option Nat) (r : Nat)
    (hr : 0 < r) :
    ((computeWeights items ⟨p, d, some r⟩).actual_weight_grams : ℤ)
        ≤ (computeWeights items ⟨p, d, some r⟩).billed_weight_grams
  ∧ (computeWeights items ⟨p, d, some r⟩).volumetric_grams
        ≤ (computeWeights items ⟨p, d, some r⟩).billed_weight_grams
  ∧ ((r : ℤ) ∣ (computeWeights items ⟨p, d, some r⟩).billed_weight_grams) := by
  have hne : r ≠ 0 := Nat.pos_iff_ne_zero.mp hr
  have hre : effRounding ⟨p, d, some r⟩ = r := by simp [effRounding, jsOr, hne]
  have hb : (computeWeights items ⟨p, d, some r⟩).billed_weight_grams
      = jsCeil ((billedMax items ⟨p, d, some r⟩ : ℚ) / (r : ℚ)) * (r : ℤ) := by
    show billedWeight items ⟨p, d, some r⟩ = _
    unfold billedWeight
    rw [hre]
  have hmax : billedMax items ⟨p, d, some r⟩
        ≤ (computeWeights items ⟨p, d, some r⟩).billed_weight_grams := by
    rw [hb]
    exact le_jsCeil_mul _ r hr
  refine ⟨le_trans (le_max_left _ _) hmax, le_trans (le_max_right _ _) hmax, ?_⟩
  rw [hb]
  exact dvd_mul_left _ _

/-- Witness for C4 at a concrete order and rounding unit 500. -/
theorem billedWeight_bounds_witness :
    0 < 500
  ∧ (((computeWeights [⟨200, some 20, some 15, some 2, 2⟩] ⟨none, none, some 500⟩).actual_weight_grams : ℤ)
        ≤ (computeWeights [⟨200, some 20, some 15, some 2, 2⟩] ⟨none, none, some 500⟩).billed_weight_grams
    ∧ (computeWeights [⟨200, some 20, some 15, some 2, 2⟩] ⟨none, none, some 500⟩).volumetric_grams
        ≤ (computeWeights [⟨200, some 20, some 15, some 2, 2⟩] ⟨none, none, some 500⟩).billed_weight_grams
    ∧ (((500:Nat) : ℤ) ∣ (computeWeights [⟨200, some 20, some 15, some 2, 2⟩] ⟨none, none, some 500⟩).billed_weight_grams)) :=
  ⟨by decide, billedWeight_bounds [⟨200, some 20, some 15, some 2, 2⟩] none none 500 (by decide)⟩

/-! ### Lemmas about the create-order validation loop -/

theorem buildOrderItems_ok_spec (catalog : List CatalogItem) :
    ∀ (l : List ReqItem) (sub : Nat) (drafts : List OrderItemDraft),
      buildOrderItems catalog l = .ok (sub, drafts) →
      sub = (drafts.map (fun d => d.unit_price_paise * d.qty)).sum
      ∧ ∀ d ∈ drafts, ∃ it ∈ catalog,
          it.id = d.item_id ∧ d.unit_price_paise = it.price_paise := by
  intro l
  induction l with
  | nil =>
    intro sub drafts h
    simp only [buildOrderItems, Except.ok.injEq, Prod.mk.injEq] at h
    obtain ⟨h1, h2⟩ := h
    subst h1; subst h2
    simp
  | cons r rest ih =>
    intro sub drafts h
    unfold buildOrderItems at h
    cases hfind : catalog.find? (fun i => i.id == r.item_id) with
    | none => rw [hfind] at h; simp at h
    | some item =>
      rw [hfind] at h
      dsimp only at h
      by_cases hs : item.stock < r.qty
      · rw [if_pos hs] at h; simp at h
      · rw [if_neg hs] at h
        cases hrec : buildOrderItems catalog rest with
        | error e => rw [hrec] at h; simp at h
        | ok p =>
          obtain ⟨sub', drafts'⟩ := p
          rw [hrec] at h
          dsimp only at h
          simp only [Except.ok.injEq, Prod.mk.injEq] at h
          obtain ⟨h1, h2⟩ := h
          subst h1; subst h2
          have hih := ih sub' drafts' hrec
          constructor
          · simp [hih.1]
          · intro d hd
            rcases List.mem_cons.mp hd with hd | hd
            · subst hd
              refine ⟨item, List.mem_of_find?_eq_some hfind, ?_, rfl⟩
              simpa using List.find?_some hfind
            · exact hih.2 d hd

theorem buildOrderItems_ok_found (catalog : List CatalogItem) :
    ∀ (l : List ReqItem) (sub : Nat) (drafts : List OrderItemDraft),
      buildOrderItems catalog l = .ok (sub, drafts) →
      ∀ r ∈ l, catalog.find? (fun i => i.id == r.item_id) ≠ none := by
  intro l
  induction l with
  | nil => intro sub drafts _ r hr; cases hr
  | cons q rest ih =>
    intro sub drafts h r hr
    unfold buildOrderItems at h
    cases hfind : catalog.find? (fun i => i.id == q.item_id) with
    | none => rw [hfind] at h; simp at h
    | some item =>
      rw [hfind] at h
      dsimp only at h
      by_cases hs : item.stock < q.qty
      · rw [if_pos hs] at h; simp at h
      · rw [if_neg hs] at h
        cases hrec : buildOrderItems catalog rest with
        | error e => rw [hrec] at h; simp at h
        | ok p =>
          rcases List.mem_cons.mp hr with hq | hq
          · subst hq; rw [hfind]; simp
          · exact ih p.1 p.2 (by rw [hrec]) r hq

theorem buildOrderItems_unknown (catalog : List CatalogItem) :
    ∀ (pre : List ReqItem) (r : ReqItem) (post : List ReqItem),
      (∀ q ∈ pre, ∃ it, catalog.find? (fun i => i.id == q.item_id) = some it
        ∧ ¬ it.stock < q.qty) →
      catalog.find? (fun i => i.id == r.item_id) = none →
      buildOrderItems catalog (pre ++ r :: post) = .error (.notFound r.item_id) := by
  intro pre
  induction pre with
  | nil =>
    intro r post _ hr
    show buildOrderItems catalog (r :: post) = _
    unfold buildOrderItems
    rw [hr]
  | cons q pre' ih =>
    intro r post hpre hr
    obtain ⟨it, hit, hst⟩ := hpre q (List.mem_cons_self q pre')
    have hrest := ih r post (fun q' hq' => hpre q' (List.mem_cons_of_mem q hq')) hr
    show buildOrderItems catalog (q :: (pre' ++ r :: post)) = _
    unfold buildOrderItems
    rw [hit]
    dsimp only
    rw [if_neg hst, hrest]

/-! ### Shape lemmas for the create-order handler -/

theorem createOrder_noSchool (db : CODb) (req : CreateOrderRequest)
    (fail : Bool) (link : Option PaymentLinkInfo)
    (hf : findActiveSchool db req.school_code = none) :
    createOrder db req fail link = (db, .invalidSchool) := by
  unfold createOrder
  rw [hf]

theorem createOrder_errNotFound (db : CODb) (req : CreateOrderRequest)
    (fail : Bool) (link : Option PaymentLinkInfo) (s : SchoolRow) (i : Nat)
    (hf : findActiveSchool db req.school_code = some s)
    (hb : buildOrderItems db.items req.items = .error (.notFound i)) :
    createOrder db req fail link = (db, .itemNotFound i) := by
  unfold createOrder
  rw [hf]
  dsimp only
  rw [hb]

theorem createOrder_errStock (db : CODb) (req : CreateOrderRequest)
    (fail : Bool) (link : Option PaymentLinkInfo) (s : SchoolRow) (i : Nat)
    (hf : findActiveSchool db req.school_code = some s)
    (hb : buildOrderItems db.items req.items = .error (.insufficientStock i)) :
    createOrder db req fail link = (db, .insufficientStock i) := by
  unfold createOrder
  rw [hf]
  dsimp only
  rw [hb]

theorem createOrder_insertFail (db : CODb) (req : CreateOrderRequest)
    (link : Option PaymentLinkInfo) (s : SchoolRow) (sub : Nat)
    (drafts : List OrderItemDraft)
    (hf : findActiveSchool db req.school_code = some s)
    (hb : buildOrderItems db.items req.items = .ok (sub, drafts)) :
    createOrder db req true link
      = ({ db with
            orders := db.orders ++ [pendingOrder db req s sub],
            nextOrderId := db.nextOrderId + 1 }, .serverError) := by
  unfold createOrder
  rw [hf]
  dsimp only
  rw [hb]
  rfl

theorem createOrder_ok_noLink (db : CODb) (req : CreateOrderRequest)
    (s : SchoolRow) (sub : Nat) (drafts : List OrderItemDraft)
    (hf : findActiveSchool db req.school_code = some s)
    (hb : buildOrderItems db.items req.items = .ok (sub, drafts)) :
    createOrder db req false none
      = ({ db with
            orders := db.orders ++ [pendingOrder db req s sub],
            nextOrderId := db.nextOrderId + 1,
            order_items := db.order_items ++ attachOrderId db.nextOrderId drafts },
         .ok db.nextOrderId (sub + deliveryCharge db req.delivery_type) none) := by
  unfold createOrder
  rw [hf]
  dsimp only
  rw [hb]
  rfl

theorem createOrder_ok_link (db : CODb) (req : CreateOrderRequest)
    (s : SchoolRow) (sub : Nat) (drafts : List OrderItemDraft) (link : PaymentLinkInfo)
    (hf : findActiveSchool db req.school_code = some s)
    (hb : buildOrderItems db.items req.items = .ok (sub, drafts)) :
    createOrder db req false (some link)
      = (applyPaymentLink
           { db with
              orders := db.orders ++ [pendingOrder db req s sub],
              nextOrderId := db.nextOrderId + 1,
              order_items := db.order_items ++ attachOrderId db.nextOrderId drafts }
           db.nextOrderId link,
         .ok db.nextOrderId (sub + deliveryCharge db req.delivery_type)
           (some link.short_url)) := by
  unfold createOrder
  rw [hf]
  dsimp only
  rw [hb]
  rfl

/-! ## Claims C2, C5, C6: the order assembler -/

/-- C2: for every successful order-creation call, the persisted order has
`items_total_paise = Σ(snapshotted unit price × qty)` over its order-item
rows, `total_amount_paise = items_total_paise + delivery_charge_paise`, each
order-item row snapshots the catalog price read at call time, and a later
catalog price change leaves the persisted orders and order items
untouched. -/
theorem create_order_totals (db db' : CODb) (req : CreateOrderRequest)
    (fail : Bool) (link : Option PaymentLinkInfo)
    (oid total : Nat) (plink : Option String)
    (h : createOrder db req fail link = (db', COResult.ok oid total plink)) :
    ∃ (order : OrderRow) (rows : List OrderItemRow),
      order ∈ db'.orders
      ∧ order.id = oid
      ∧ db'.order_items = db.order_items ++ rows
      ∧ (∀ r ∈ rows, r.order_id = oid
          ∧ ∃ it ∈ db.items, it.id = r.item_id ∧ r.unit_price_paise = it.price_paise)
      ∧ order.items_total_paise = (rows.map (fun r => r.unit_price_paise * r.qty)).sum
      ∧ order.total_amount_paise = order.items_total_paise + order.delivery_charge_paise
      ∧ total = order.total_amount_paise
      ∧ (∀ i p, (updateCatalogPrice db' i p).orders = db'.orders
            ∧ (updateCatalogPrice db' i p).order_items = db'.order_items) := by
  cases hf : findActiveSchool db req.school_code with
  | none =>
    rw [createOrder_noSchool db req fail link hf] at h
    simp at h
  | some s =>
    cases hb : buildOrderItems db.items req.items with
    | error e =>
      cases e with
      | notFound i =>
        rw [createOrder_errNotFound db req fail link s i hf hb] at h
        simp at h
      | insufficientStock i =>
        rw [createOrder_errStock db req fail link s i hf hb] at h
        simp at h
    | ok p =>
      obtain ⟨sub, drafts⟩ := p
      have hspec := buildOrderItems_ok_spec db.items req.items sub drafts hb
      have hrows : ∀ r ∈ attachOrderId db.nextOrderId drafts, r.order_id = db.nextOrderId
          ∧ ∃ it ∈ db.items, it.id = r.item_id ∧ r.unit_price_paise = it.price_paise := by
        intro r hr
        obtain ⟨d, hd, rfl⟩ := List.mem_map.mp hr
        exact ⟨rfl, hspec.2 d hd⟩
      have hsum : sub = ((attachOrderId db.nextOrderId drafts).map
          (fun r => r.unit_price_paise * r.qty)).sum := by
        rw [attachOrderId, List.map_map]
        exact hspec.1
      cases fail with
      | true =>
        rw [createOrder_insertFail db req link s sub drafts hf hb] at h
        simp at h
      | false =>
        cases link with
        | none =>
          rw [createOrder_ok_noLink db req s sub drafts hf hb] at h
          simp only [Prod.mk.injEq, COResult.ok.injEq] at h
          obtain ⟨hdb, hoid, htot, hpl⟩ := h
          subst hdb; subst hoid; subst htot; subst hpl
          exact ⟨pendingOrder db req s sub, attachOrderId db.nextOrderId drafts,
            List.mem_append_right _ (List.mem_singleton_self _), rfl, rfl, hrows,
            hsum, rfl, rfl, fun i p => ⟨rfl, rfl⟩⟩
        | some lk =>
          rw [createOrder_ok_link db req s sub drafts lk hf hb] at h
          simp only [Prod.mk.injEq, COResult.ok.injEq] at h
          obtain ⟨hdb, hoid, htot, hpl⟩ := h
          subst hdb; subst hoid; subst htot; subst hpl
          refine ⟨{ pendingOrder db req s sub with
                      payment_id := some lk.link_id,
                      payment_link := some lk.short_url },
            attachOrderId db.nextOrderId drafts, ?_, rfl, rfl, hrows, hsum, rfl, rfl,
            fun i p => ⟨rfl, rfl⟩⟩
          show _ ∈ (List.map _ _)
          have hfp :
              (fun (o : OrderRow) =>
                if o.id == db.nextOrderId then
                  { o with payment_id := some lk.link_id,
                           payment_link := some lk.short_url }
                else o) (pendingOrder db req s sub)
              = { pendingOrder db req s sub with
                    payment_id := some lk.link_id,
                    payment_link := some lk.short_url } := by
            simp [pendingOrder]
          rw [← hfp]
          exact List.mem_map_of_mem _
            (List.mem_append_right _ (List.mem_singleton_self _))

/-- A concrete active school used by the order-assembler examples. -/
def exSchool : SchoolRow := ⟨7, "1234", true⟩

/-- Catalog with one in-stock item (id 1, ₹100, stock 5). -/
def exDb : CODb := ⟨[exSchool], [], [⟨1, 10000, 5⟩], 1, [], []⟩

/-- Catalog with item 1 out of stock. -/
def exDbLowStock : CODb := ⟨[exSchool], [], [⟨1, 10000, 0⟩], 1, [], []⟩

/-- Catalog with two in-stock items and a configured school delivery
charge of 4000 paise. -/
def exDb2 : CODb :=
  ⟨[exSchool], [("school_delivery_charge_paise", 4000)],
   [⟨1, 10000, 5⟩, ⟨2, 2500, 3⟩], 1, [], []⟩

/-- A request that lists out-of-stock item 1 before unknown item 99. -/
def exReqUnknown : CreateOrderRequest :=
  ⟨"1234", 2, "books", [⟨1, 1⟩, ⟨99, 1⟩], "school", "919000000000", none, none⟩

/-- A fully valid request (item 1, qty 2, home delivery). -/
def exReqGood : CreateOrderRequest :=
  ⟨"1234", 2, "books", [⟨1, 2⟩], "home", "919000000000", none, some "42 Lane, Pune"⟩

/-- A fully valid two-item request (school delivery). -/
def exReqTwo : CreateOrderRequest :=
  ⟨"1234", 2, "books", [⟨1, 2⟩, ⟨2, 1⟩], "school", "919000000000", some "A Parent", none⟩

/-- The database state after the successful two-item order. -/
def exDb2' : CODb := (createOrder exDb2 exReqTwo false none).1

/-- Witness for C2: the concrete two-item order totals 2×10000 + 2500 =
22500 paise of items plus the configured 4000 paise delivery charge. -/
theorem create_order_totals_witness :
    (createOrder exDb2 exReqTwo false none = (exDb2', COResult.ok 1 26500 none))
  ∧ (∃ (order : OrderRow) (rows : List OrderItemRow),
      order ∈ exDb2'.orders
      ∧ order.id = 1
      ∧ exDb2'.order_items = exDb2.order_items ++ rows
      ∧ (∀ r ∈ rows, r.order_id = 1
          ∧ ∃ it ∈ exDb2.items, it.id = r.item_id ∧ r.unit_price_paise = it.price_paise)
      ∧ order.items_total_paise = (rows.map (fun r => r.unit_price_paise * r.qty)).sum
      ∧ order.total_amount_paise = order.items_total_paise + order.delivery_charge_paise
      ∧ 26500 = order.total_amount_paise
      ∧ (∀ i p, (updateCatalogPrice exDb2' i p).orders = exDb2'.orders
            ∧ (updateCatalogPrice exDb2' i p).order_items = exDb2'.order_items)) :=
  ⟨by decide,
   create_order_totals exDb2 exDb2' exReqTwo false none 1 26500 none (by decide)⟩

/-- Counterexample for C5 as frozen: `exReqUnknown` contains the unknown
item id 99, yet the call is rejected with `Insufficient stock for item 1`
(the loop fails on the earlier out-of-stock item), not with the
item-not-found error. -/
theorem create_order_unknown_item_cex :
    (⟨99, 1⟩ : ReqItem) ∈ exReqUnknown.items
  ∧ exDbLowStock.items.find? (fun i => i.id == (99:Nat)) = none
  ∧ createOrder exDbLowStock exReqUnknown false none
      = (exDbLowStock, COResult.insufficientStock 1)
  ∧ COResult.insufficientStock 1 ≠ COResult.itemNotFound 99 := by decide

/-- C5 (amended): a request containing an unknown item id is always
rejected with the database unchanged; the error is the item-not-found error
when the school code resolves and every item listed before the first
unknown id passes the stock check. -/
theorem create_order_unknown_item :
    (∀ (db : CODb) (req : CreateOrderRequest) (fail : Bool)
        (link : Option PaymentLinkInfo),
        (∃ r ∈ req.items, db.items.find? (fun i => i.id == r.item_id) = none) →
        (createOrder db req fail link).1 = db
        ∧ ∀ oid t pl, (createOrder db req fail link).2 ≠ COResult.ok oid t pl)
  ∧ (∀ (db : CODb) (req : CreateOrderRequest) (fail : Bool)
        (link : Option PaymentLinkInfo) (s : SchoolRow)
        (pre : List ReqItem) (r : ReqItem) (post : List ReqItem),
        findActiveSchool db req.school_code = some s →
        req.items = pre ++ r :: post →
        (∀ q ∈ pre, ∃ it, db.items.find? (fun i => i.id == q.item_id) = some it
          ∧ ¬ it.stock < q.qty) →
        db.items.find? (fun i => i.id == r.item_id) = none →
        createOrder db req fail link = (db, COResult.itemNotFound r.item_id)) := by
  constructor
  · rintro db req fail link ⟨r, hr, hnone⟩
    cases hf : findActiveSchool db req.school_code with
    | none =>
      rw [createOrder_noSchool db req fail link hf]
      exact ⟨rfl, by simp⟩
    | some s =>
      cases hb : buildOrderItems db.items req.items with
      | error e =>
        cases e with
        | notFound i =>
          rw [createOrder_errNotFound db req fail link s i hf hb]
          exact ⟨rfl, by simp⟩
        | insufficientStock i =>
          rw [createOrder_errStock db req fail link s i hf hb]
          exact ⟨rfl, by simp⟩
      | ok p =>
        exact absurd hnone
          (buildOrderItems_ok_found db.items req.items p.1 p.2 (by rw [hb]) r hr)
  · intro db req fail link s pre r post hf heq hpre hnone
    have hbuild := buildOrderItems_unknown db.items pre r post hpre hnone
    exact createOrder_errNotFound db req fail link s r.item_id hf
      (by rw [heq]; exact hbuild)

/-- Witness for C5 (amended) on concrete data: with only item 1 in the
catalog, a request listing item 1 (in stock) and then unknown item 99 is
rejected with item-not-found 99 and leaves the database unchanged. -/
theorem create_order_unknown_item_witness :
    ((createOrder exDb exReqUnknown false none).1 = exDb)
  ∧ ((createOrder exDb exReqUnknown false none).2 ≠ COResult.ok 1 26500 none)
  ∧ (createOrder exDb exReqUnknown false none = (exDb, COResult.itemNotFound 99)) :=
  ⟨(create_order_unknown_item.1 exDb exReqUnknown false none
      ⟨⟨99, 1⟩, by decide, by decide⟩).1,
   (create_order_unknown_item.1 exDb exReqUnknown false none
      ⟨⟨99, 1⟩, by decide, by decide⟩).2 1 26500 none,
   create_order_unknown_item.2 exDb exReqUnknown false none exSchool
     [⟨1, 1⟩] ⟨99, 1⟩ [] (by decide) rfl
     (by
       intro q hq
       rw [List.mem_singleton] at hq
       subst hq
       exact ⟨⟨1, 10000, 5⟩, by decide, by decide⟩)
     (by decide)⟩

/-- Counterexample for C6 as frozen: when the `order_items` insert fails,
the handler returns a 500 and the freshly inserted order (id 1) stays in
the database with zero order-item rows — an orphaned order, with no
transaction or compensating delete. -/
theorem create_order_orphan_cex :
    (createOrder exDb exReqGood true none).2 = COResult.serverError
  ∧ ((createOrder exDb exReqGood true none).1.orders.map (fun o => o.id)) = [1]
  ∧ (createOrder exDb exReqGood true none).1.order_items = [] := by decide

/-- C6 (amended): if persisting the OrderItems fails after the Order row is
inserted, the call returns a server error and performs no rollback: the
pending order row remains persisted and no order-item rows exist for it. -/
theorem create_order_no_rollback (db : CODb) (req : CreateOrderRequest)
    (link : Option PaymentLinkInfo) (s : SchoolRow) (sub : Nat)
    (drafts : List OrderItemDraft)
    (hf : findActiveSchool db req.school_code = some s)
    (hb : buildOrderItems db.items req.items = .ok (sub, drafts)) :
    (createOrder db req true link).2 = COResult.serverError
  ∧ (createOrder db req true link).1.orders = db.orders ++ [pendingOrder db req s sub]
  ∧ (createOrder db req true link).1.order_items = db.order_items
  ∧ (pendingOrder db req s sub).status = "pending"
  ∧ (pendingOrder db req s sub).id = db.nextOrderId := by
  rw [createOrder_insertFail db req link s sub drafts hf hb]
  exact ⟨rfl, rfl, rfl, rfl, rfl⟩

/-- Witness for C6 (amended) at the concrete failing insert. -/
theorem create_order_no_rollback_witness :
    (createOrder exDb exReqGood true none).2 = COResult.serverError
  ∧ (createOrder exDb exReqGood true none).1.orders
      = exDb.orders ++ [pendingOrder exDb exReqGood exSchool 20000]
  ∧ (createOrder exDb exReqGood true none).1.order_items = exDb.order_items
  ∧ (pendingOrder exDb exReqGood exSchool 20000).status = "pending"
  ∧ (pendingOrder exDb exReqGood exSchool 20000).id = exDb.nextOrderId :=
  create_order_no_rollback exDb exReqGood none exSchool 20000
    [⟨1, 2, 10000⟩] (by decide) (by rfl)

/-! ## razorpay-webhook (`src/lib/utils.ts`, `Deno.serve` handler)

The handler is modelled from signature verification onwards (the HMAC check
guards entry and involves no order state).  The payload is pre-parsed into
the fields the handler reads; `none` models an absent JSON field. -/

/-- `payload.payment_link.entity`: the link id (`link_xxx`) and the
payments array (of which the code reads only the optional first capture id,
which it never uses afterwards). -/
structure LinkEntity where
  id : Option String
  payments : List String
  deriving Repr, DecidableEq

/-- `payload.payment.entity`: the payment id, the Razorpay order id, and
`notes.order_id` (a numeric string; `none` models an absent or empty
value, and `Number(...)` of the string is the `Nat`). -/
structure PaymentEntity where
  id : Option String
  order_id : Option String
  notes_order_id : Option Nat
  deriving Repr, DecidableEq

/-- The parsed webhook payload: `eventJson.event` plus the two optional
entity payloads. -/
structure RazorpayEvent where
  event : Option String
  payment_link_entity : Option LinkEntity
  payment_entity : Option PaymentEntity
  deriving Repr, DecidableEq

/-- A row of the append-only `courier_events` audit table (the webhook
payload column is represented by the normalized event type). -/
structure CourierEventRow where
  order_id : Option Nat
  courier_name : String
  event_type : Option String
  deriving Repr, DecidableEq

/-- The database state the payment and courier webhooks read and write. -/
structure WebhookDb where
  orders : List OrderRow
  courier_events : List CourierEventRow
  deriving Repr, DecidableEq

/-- Outbound WhatsApp notifications the handlers send. -/
inductive Notification where
  | paymentReceived (phone : String) (order_id : Nat)
  | paymentFailed (phone : String) (order_id : Nat)
  | shipmentCreated (phone : String) (order_id : Nat)
  deriving Repr, DecidableEq

/-- The observable outcome of one webhook invocation. -/
structure WebhookOutcome where
  db : WebhookDb
  httpStatus : Nat
  notifications : List Notification
  computeWeightsTriggered : Bool
  createShipmentTriggered : Bool
  deriving Repr, DecidableEq

/-- The row shape produced by
`select("id, parent_phone, total_amount_paise, payment_status")`: only the
listed columns are present on the JS row object; reading any other column
— in particular `status`, which this select does NOT list — yields
`undefined`, modelled as `none`. -/
structure FetchedOrderRow where
  id : Nat
  parent_phone : String
  total_amount_paise : Nat
  payment_status : Option String
  status : Option String
  deriving Repr, DecidableEq

/-- Projection of a full order row through the payment-webhook select. -/
def selectPaymentRow (o : OrderRow) : FetchedOrderRow :=
  { id := o.id
    parent_phone := o.parent_phone
    total_amount_paise := o.total_amount_paise
    payment_status := some o.payment_status
    status := none }

/-- The idempotency check exactly as written:
`orderRow.payment_status === "paid" || orderRow.status === "confirmed"`
(on the fetched row, whose `status` is always `undefined`). -/
def paidGate (row : FetchedOrderRow) : Prop :=
  row.payment_status = some "paid" ∨ row.status = some "confirmed"

instance (row : FetchedOrderRow) : Decidable (paidGate row) := by
  unfold paidGate
  infer_instance

/-- `update({ payment_status: "paid", status: "confirmed", paid_at: now })`. -/
def markPaid (db : WebhookDb) (oid : Nat) : WebhookDb :=
  { db with orders := db.orders.map (fun o =>
      if o.id == oid then
        { o with payment_status := "paid", status := "confirmed", paid_at_set := true }
      else o) }

/-- `update({ payment_status: "failed", status: "payment_failed" })`. -/
def markFailed (db : WebhookDb) (oid : Nat) : WebhookDb :=
  { db with orders := db.orders.map (fun o =>
      if o.id == oid then
        { o with payment_status := "failed", status := "payment_failed" }
      else o) }

/-- `logWebhook`: insert an audit row into `courier_events` with
`courier_name: "razorpay"`. -/
def logWebhook (db : WebhookDb) (oid : Option Nat) (event_type : Option String) :
    WebhookDb :=
  { db with courier_events := db.courier_events ++ [⟨oid, "razorpay", event_type⟩] }

/-- `.from("orders").select(...).eq("payment_id", linkId).maybeSingle()`. -/
def resolveByLink (db : WebhookDb) (linkId : Option String) : Option OrderRow :=
  db.orders.find? (fun o => o.payment_id == linkId)

/-- Order resolution of the `payment.captured` / `payment.failed` branch:
try `notes.order_id` (truthy, hence nonzero, after `Number(...)`), then
fall back to matching `payment_id` against `paymentEntity.order_id`. -/
def resolvePaymentOrder (db : WebhookDb) (pe : PaymentEntity) : Option OrderRow :=
  match (match pe.notes_order_id with
         | some n => if n ≠ 0 then db.orders.find? (fun o => o.id == n) else none
         | none => none) with
  | some o => some o
  | none =>
    match pe.order_id with
    | some poid => db.orders.find? (fun o => o.payment_id == some poid)
    | none => none

/-- The razorpay-webhook event processing.  `shipmentAwb` is the `awb`
field of the best-effort create-shipment call's JSON response (`none` when
the call failed or returned no awb); the compute-weights and
create-shipment fetches themselves are recorded as trigger flags. -/
def razorpayWebhook (db : WebhookDb) (ev : RazorpayEvent) (shipmentAwb : Option String) :
    WebhookOutcome :=
  if ev.event = some "payment_link.paid" then
    match ev.payment_link_entity with
    | none => ⟨db, 200, [], false, false⟩
    | some linkEntity =>
      match resolveByLink db linkEntity.id with
      | none => ⟨logWebhook db none ev.event, 200, [], false, false⟩
      | some o =>
        let row := selectPaymentRow o
        if paidGate row then
          ⟨logWebhook db (some row.id) ev.event, 200, [], false, false⟩
        else
          ⟨logWebhook (markPaid db row.id) (some row.id) ev.event, 200,
           [Notification.paymentReceived row.parent_phone row.id]
             ++ (match shipmentAwb with
                 | some _ => [Notification.shipmentCreated row.parent_phone row.id]
                 | none => []),
           true, true⟩
  else if ev.event = some "payment.captured" ∨ ev.event = some "payment.failed" then
    match ev.payment_entity with
    | none => ⟨logWebhook db none ev.event, 200, [], false, false⟩
    | some pe =>
      match resolvePaymentOrder db pe with
      | none => ⟨logWebhook db none ev.event, 200, [], false, false⟩
      | some o =>
        let row := selectPaymentRow o
        if ev.event = some "payment.captured" ∧ paidGate row then
          ⟨logWebhook db (some row.id) ev.event, 200, [], false, false⟩
        else if ev.event = some "payment.captured" then
          ⟨logWebhook (markPaid db row.id) (some row.id) ev.event, 200,
           [Notification.paymentReceived row.parent_phone row.id], false, false⟩
        else
          ⟨logWebhook (markFailed db row.id) (some row.id) ev.event, 200,
           [Notification.paymentFailed row.parent_phone row.id], false, false⟩
  else
    ⟨logWebhook db none ev.event, 200, [], false, false⟩

/-! ## String primitives for the JS string operations -/

/-- `as` is a prefix of `bs` (character lists). -/
def isPrefixList : List Char → List Char → Bool
  | [], _ => true
  | _ :: _, [] => false
  | a :: as, b :: bs => a == b && isPrefixList as bs

/-- `pat` occurs as a contiguous substring of the character list. -/
def containsSub (pat : List Char) : List Char → Bool
  | [] => pat.isEmpty
  | c :: rest => isPrefixList pat (c :: rest) || containsSub pat rest

/-- JS `hay.includes(pat)`. -/
def strIncludes (hay pat : String) : Bool := containsSub pat.data hay.data

/-- JS `s.toLowerCase()` (all strings involved are ASCII). -/
def strLower (s : String) : String := ⟨s.data.map Char.toLower⟩

/-- JS `s.toUpperCase()` (all strings involved are ASCII). -/
def strUpper (s : String) : String := ⟨s.data.map Char.toUpper⟩

/-- JS `a || b` on two optional strings: `a` unless it is absent or the
empty string (falsy). -/
def jsOrStr (a b : Option String) : Option String :=
  match a with
  | some s => if s = "" then b else some s
  | none => b

/-! ## delhivery-webhook (`supabase/functions/delhivery-webhook/index.ts`) -/

/-- The parsed courier webhook payload.  `awb` stands for
`payload.awb || payload.waybill` fed by two fields, and `status` /
`status_code` each stand for the `x || X` casing pair of the source. -/
structure DelhiveryPayload where
  awb : Option String
  waybill : Option String
  status : Option String
  status_code : Option String
  deriving Repr, DecidableEq

/-- The HTTP outcome of the courier webhook. -/
inductive DelhiveryResult where
  | badRequest
  | okNoOrder
  | okUpdated (order_id : Nat) (newStatus : Option String)
  deriving Repr, DecidableEq

/-- The status-normalization rule chain of the handler, applied to
`(status || statusCode || "")`: lowercase, then the first matching
substring rule wins; no match yields `none` (no status update). -/
def normalizeStatus (statusText : String) : Option String :=
  let statusLower := strLower statusText
  if strIncludes statusLower "picked" || strIncludes statusLower "pickup" then
    some "processing"
  else if strIncludes statusLower "in transit" || strIncludes statusLower "in_transit"
      || strIncludes statusLower "dispatched"
      || strIncludes statusLower "out for delivery" then
    some "out_for_delivery"
  else if strIncludes statusLower "delivered" then
    some "delivered"
  else if strIncludes statusLower "cancelled" || strIncludes statusLower "rto"
      || strIncludes statusLower "return" then
    some "cancelled"
  else
    none

/-- The delhivery-webhook handler.  Note that in the no-matching-order case
the source only logs to the console and returns success: no `courier_events`
row is inserted on that path. -/
def delhiveryWebhook (db : WebhookDb) (payload : DelhiveryPayload) :
    WebhookDb × DelhiveryResult :=
  match jsOrStr payload.awb payload.waybill with
  | none => (db, .badRequest)
  | some aw =>
    if aw = "" then (db, .badRequest)
    else
      match db.orders.find? (fun o => o.courier_awb == some aw) with
      | none => (db, .okNoOrder)
      | some o =>
        let eventType := jsOrStr payload.status payload.status_code
        let db1 : WebhookDb :=
          { db with courier_events := db.courier_events ++ [⟨some o.id, "delhivery", eventType⟩] }
        match normalizeStatus (eventType.getD "") with
        | some ns =>
          ({ db1 with orders := db1.orders.map (fun p =>
              if p.id == o.id then { p with status := ns } else p) },
           .okUpdated o.id (some ns))
        | none => (db1, .okUpdated o.id none)

/-! ## Claims C1, C8, C9, C10: the webhook handlers -/

/-- An order whose lifecycle status is "confirmed" while its payment status
is still "pending", holding payment link id `link_1`. -/
def rzOrderConfirmedUnpaid : OrderRow :=
  ⟨1, 7, 2, "919000000000", none, "school", none, 5000, 20000, 25000,
   "pending", "confirmed", some "link_1", some "https://rzp.io/l", false, none⟩

/-- Webhook database holding just that order. -/
def rzDbC1 : WebhookDb := ⟨[rzOrderConfirmedUnpaid], []⟩

/-- A `payment_link.paid` event for payment link `link_1`. -/
def rzEventLinkPaid : RazorpayEvent :=
  ⟨some "payment_link.paid", some ⟨some "link_1", []⟩, none⟩

/-- C1: the first delivery of `payment_link.paid` for an order that is
already lifecycle-"confirmed" (but payment-"pending") is NOT treated as a
duplicate: the handler updates the order, sends a payment-received
notification and triggers the downstream chain — because the idempotency
check reads `orderRow.status`, a column the preceding
`select("id, parent_phone, total_amount_paise, payment_status")` never
fetched, so the `status === "confirmed"` disjunct is always false.  Once
the order's payment status is "paid", a second delivery of the same event
is gated: it only appends an audit row and sends nothing, so state changes
exactly once per the payment-status disjunct. -/
theorem razorpay_confirmed_gate_bug :
    rzOrderConfirmedUnpaid.status = "confirmed"
  ∧ (razorpayWebhook rzDbC1 rzEventLinkPaid none).httpStatus = 200
  ∧ (razorpayWebhook rzDbC1 rzEventLinkPaid none).notifications
      = [Notification.paymentReceived "919000000000" 1]
  ∧ (razorpayWebhook rzDbC1 rzEventLinkPaid none).db.orders
      = [{ rzOrderConfirmedUnpaid with
            payment_status := "paid", status := "confirmed", paid_at_set := true }]
  ∧ (razorpayWebhook rzDbC1 rzEventLinkPaid none).computeWeightsTriggered = true
  ∧ (razorpayWebhook rzDbC1 rzEventLinkPaid none).createShipmentTriggered = true
  ∧ (razorpayWebhook (razorpayWebhook rzDbC1 rzEventLinkPaid none).db
        rzEventLinkPaid none).notifications = []
  ∧ (razorpayWebhook (razorpayWebhook rzDbC1 rzEventLinkPaid none).db
        rzEventLinkPaid none).db.orders
      = (razorpayWebhook rzDbC1 rzEventLinkPaid none).db.orders := by
  decide

/-- C10: every `payment.failed` delivery that resolves to an order runs
with no idempotency gate (the gate is conditioned on `payment.captured`):
it unconditionally sets payment status "failed" and lifecycle status
"payment_failed", appends the audit row, notifies the buyer of the failure
and returns 200 — whatever the order's current state, so a repeated
delivery or a failed event after payment does it again. -/
theorem payment_failed_no_gate (db : WebhookDb) (ev : RazorpayEvent)
    (pe : PaymentEntity) (o : OrderRow) (awb : Option String)
    (hev : ev.event = some "payment.failed")
    (hpe : ev.payment_entity = some pe)
    (ho : resolvePaymentOrder db pe = some o) :
    razorpayWebhook db ev awb
      = ⟨logWebhook (markFailed db o.id) (some o.id) (some "payment.failed"), 200,
         [Notification.paymentFailed o.parent_phone o.id], false, false⟩ := by
  unfold razorpayWebhook
  rw [hev, if_neg (by decide), if_pos (by decide), hpe]
  dsimp only
  rw [ho]
  dsimp only
  rw [if_neg (fun h => absurd h.1 (by decide)), if_neg (by decide)]
  rfl

/-- A paid and confirmed order reachable by a `payment.failed` event via
`notes.order_id`. -/
def rzOrderPaid : OrderRow :=
  ⟨5, 7, 2, "919111111111", none, "home", some "42 Lane", 15000, 20000, 35000,
   "paid", "confirmed", some "link_5", none, true, none⟩

/-- Webhook database holding the paid order. -/
def rzDbPaid : WebhookDb := ⟨[rzOrderPaid], []⟩

/-- A `payment.failed` event whose `notes.order_id` is 5. -/
def rzEventFailed : RazorpayEvent :=
  ⟨some "payment.failed", none, some ⟨some "pay_9", none, some 5⟩⟩

/-- Witness for C10: the failed event overwrites even an already-paid
order and notifies the buyer. -/
theorem payment_failed_no_gate_witness :
    razorpayWebhook rzDbPaid rzEventFailed none
      = ⟨logWebhook (markFailed rzDbPaid 5) (some 5) (some "payment.failed"), 200,
         [Notification.paymentFailed "919111111111" 5], false, false⟩ :=
  payment_failed_no_gate rzDbPaid rzEventFailed ⟨some "pay_9", none, some 5⟩
    rzOrderPaid none rfl rfl (by decide)

/-- An order with a courier AWB, used by the courier-webhook examples. -/
def exCourierOrder : OrderRow :=
  ⟨1, 7, 2, "919000000000", none, "school", none, 5000, 20000, 25000,
   "paid", "processing", some "link_1", none, true, some "AWB123"⟩

/-- Courier-webhook database with that order and an empty audit log. -/
def exWebhookDb : WebhookDb := ⟨[exCourierOrder], []⟩

/-- A courier payload whose status text matches no normalization rule. -/
def exUnmatchedPayload : DelhiveryPayload :=
  ⟨some "AWB123", none, some "manifest uploaded", none⟩

/-- A courier payload with an AWB that matches no order. -/
def exUnknownAwbPayload : DelhiveryPayload :=
  ⟨some "NOPE999", none, some "Delivered", none⟩

/-- Counterexample for C8 as frozen: this status text contains
"out for delivery" (case-insensitively), yet the handler maps it to
"processing", because the pickup rule is checked first and also matches. -/
theorem courier_out_for_delivery_cex :
    strIncludes (strLower "Pickup scheduled - Out for delivery") "out for delivery" = true
  ∧ normalizeStatus "Pickup scheduled - Out for delivery" = some "processing"
  ∧ some "processing" ≠ some "out_for_delivery" := by decide

/-- C8 (amended): the free-text status is normalized by case-insensitive
substring matching against the fixed rule chain in source order —
pickup-related text maps to "processing"; failing that, transit / dispatch
/ out-for-delivery text maps to "out_for_delivery"; failing those,
"delivered" maps to "delivered"; failing those, cancellation / return /
RTO text maps to "cancelled"; text matching no rule yields no update and
the order's lifecycle status is left unchanged (the audit row is still
appended).  In particular "out for delivery" text maps to
"out_for_delivery" provided no earlier (pickup) rule matches. -/
theorem courier_status_mapping :
    (∀ s : String,
        (strIncludes (strLower s) "picked" || strIncludes (strLower s) "pickup") = true →
        normalizeStatus s = some "processing")
  ∧ (∀ s : String,
        (strIncludes (strLower s) "picked" || strIncludes (strLower s) "pickup") = false →
        (strIncludes (strLower s) "in transit" || strIncludes (strLower s) "in_transit"
          || strIncludes (strLower s) "dispatched"
          || strIncludes (strLower s) "out for delivery") = true →
        normalizeStatus s = some "out_for_delivery")
  ∧ (∀ s : String,
        (strIncludes (strLower s) "picked" || strIncludes (strLower s) "pickup") = false →
        (strIncludes (strLower s) "in transit" || strIncludes (strLower s) "in_transit"
          || strIncludes (strLower s) "dispatched"
          || strIncludes (strLower s) "out for delivery") = false →
        strIncludes (strLower s) "delivered" = true →
        normalizeStatus s = some "delivered")
  ∧ (∀ s : String,
        (strIncludes (strLower s) "picked" || strIncludes (strLower s) "pickup") = false →
        (strIncludes (strLower s) "in transit" || strIncludes (strLower s) "in_transit"
          || strIncludes (strLower s) "dispatched"
          || strIncludes (strLower s) "out for delivery") = false →
        strIncludes (strLower s) "delivered" = false →
        (strIncludes (strLower s) "cancelled" || strIncludes (strLower s) "rto"
          || strIncludes (strLower s) "return") = true →
        normalizeStatus s = some "cancelled")
  ∧ (∀ s : String,
        (strIncludes (strLower s) "picked" || strIncludes (strLower s) "pickup") = false →
        (strIncludes (strLower s) "in transit" || strIncludes (strLower s) "in_transit"
          || strIncludes (strLower s) "dispatched"
          || strIncludes (strLower s) "out for delivery") = false →
        strIncludes (strLower s) "delivered" = false →
        (strIncludes (strLower s) "cancelled" || strIncludes (strLower s) "rto"
          || strIncludes (strLower s) "return") = false →
        normalizeStatus s = none)
  ∧ (∀ (db : WebhookDb) (p : DelhiveryPayload) (o : OrderRow) (aw : String),
        jsOrStr p.awb p.waybill = some aw → aw ≠ "" →
        db.orders.find? (fun x => x.courier_awb == some aw) = some o →
        normalizeStatus ((jsOrStr p.status p.status_code).getD "") = none →
        (delhiveryWebhook db p).1.orders = db.orders
        ∧ (delhiveryWebhook db p).2 = DelhiveryResult.okUpdated o.id none) := by
  refine ⟨?_, ?_, ?_, ?_, ?_, ?_⟩
  · intro s h1
    simp [normalizeStatus, h1]
  · intro s h1 h2
    simp [normalizeStatus, h1, h2]
  · intro s h1 h2 h3
    simp [normalizeStatus, h1, h2, h3]
  · intro s h1 h2 h3 h4
    simp [normalizeStatus, h1, h2, h3, h4]
  · intro s h1 h2 h3 h4
    simp [normalizeStatus, h1, h2, h3, h4]
  · intro db p o aw hawb haw hfind hnorm
    unfold delhiveryWebhook
    rw [hawb]
    dsimp only
    rw [if_neg haw, hfind]
    dsimp only
    rw [hnorm]
    exact ⟨rfl, rfl⟩

/-- Witness for C8 (amended) on concrete texts and on the concrete
handler run with unmatched status text. -/
theorem courier_status_mapping_witness :
    normalizeStatus "PICKED UP" = some "processing"
  ∧ normalizeStatus "Out For Delivery" = some "out_for_delivery"
  ∧ normalizeStatus "Shipment DELIVERED" = some "delivered"
  ∧ normalizeStatus "RTO initiated" = some "cancelled"
  ∧ normalizeStatus "manifest uploaded" = none
  ∧ ((delhiveryWebhook exWebhookDb exUnmatchedPayload).1.orders = exWebhookDb.orders
      ∧ (delhiveryWebhook exWebhookDb exUnmatchedPayload).2
          = DelhiveryResult.okUpdated 1 none) :=
  ⟨courier_status_mapping.1 "PICKED UP" (by decide),
   courier_status_mapping.2.1 "Out For Delivery" (by decide) (by decide),
   courier_status_mapping.2.2.1 "Shipment DELIVERED" (by decide) (by decide) (by decide),
   courier_status_mapping.2.2.2.1 "RTO initiated" (by decide) (by decide) (by decide) (by decide),
   courier_status_mapping.2.2.2.2.1 "manifest uploaded" (by decide) (by decide) (by decide) (by decide),
   courier_status_mapping.2.2.2.2.2 exWebhookDb exUnmatchedPayload exCourierOrder "AWB123"
     (by decide) (by decide) (by decide) (by decide)⟩

/-- A `payment_link.paid` event whose link id matches no order. -/
def rzEventLinkUnknown : RazorpayEvent :=
  ⟨some "payment_link.paid", some ⟨some "link_404", []⟩, none⟩

/-- A `payment.captured` event that resolves to no order (unknown
`notes.order_id` and unknown Razorpay order id). -/
def rzEventCapturedUnknown : RazorpayEvent :=
  ⟨some "payment.captured", none, some ⟨some "pay_1", some "order_x", some 99⟩⟩

/-- Counterexample for C9 as frozen: a courier webhook whose AWB resolves
to no order is acknowledged with success and mutates nothing — but appends
NO audit record: the handler only writes to the console on this path, so
`courier_events` is unchanged. -/
theorem unresolved_courier_audit_cex :
    exWebhookDb.orders.find? (fun o => o.courier_awb == some "NOPE999") = none
  ∧ delhiveryWebhook exWebhookDb exUnknownAwbPayload
      = (exWebhookDb, DelhiveryResult.okNoOrder)
  ∧ (delhiveryWebhook exWebhookDb exUnknownAwbPayload).1.courier_events
      = exWebhookDb.courier_events := by decide

/-- C9 (amended): an unresolvable payment webhook event (unknown payment
link id, or unknown order reference on `payment.captured` /
`payment.failed`) is acknowledged with 200, mutates no order, sends no
notification, and appends an audit record with a null order id; an
unresolvable courier webhook event is acknowledged with success and
mutates no order, but appends no audit record (console log only). -/
theorem unresolved_webhook_events :
    (∀ (db : WebhookDb) (ev : RazorpayEvent) (le : LinkEntity) (awb : Option String),
        ev.event = some "payment_link.paid" →
        ev.payment_link_entity = some le →
        resolveByLink db le.id = none →
        (razorpayWebhook db ev awb).db.orders = db.orders
        ∧ (razorpayWebhook db ev awb).db.courier_events
            = db.courier_events ++ [⟨none, "razorpay", some "payment_link.paid"⟩]
        ∧ (razorpayWebhook db ev awb).httpStatus = 200
        ∧ (razorpayWebhook db ev awb).notifications = [])
  ∧ (∀ (db : WebhookDb) (ev : RazorpayEvent) (pe : PaymentEntity) (awb : Option String),
        (ev.event = some "payment.captured" ∨ ev.event = some "payment.failed") →
        ev.payment_entity = some pe →
        resolvePaymentOrder db pe = none →
        (razorpayWebhook db ev awb).db.orders = db.orders
        ∧ (razorpayWebhook db ev awb).db.courier_events
            = db.courier_events ++ [⟨none, "razorpay", ev.event⟩]
        ∧ (razorpayWebhook db ev awb).httpStatus = 200
        ∧ (razorpayWebhook db ev awb).notifications = [])
  ∧ (∀ (db : WebhookDb) (p : DelhiveryPayload) (aw : String),
        jsOrStr p.awb p.waybill = some aw → aw ≠ "" →
        db.orders.find? (fun o => o.courier_awb == some aw) = none →
        delhiveryWebhook db p = (db, DelhiveryResult.okNoOrder)) := by
  refine ⟨?_, ?_, ?_⟩
  · intro db ev le awb hev hle hres
    unfold razorpayWebhook
    rw [hev, if_pos rfl, hle]
    dsimp only
    rw [hres]
    exact ⟨rfl, rfl, rfl, rfl⟩
  · intro db ev pe awb hor hpe hres
    rcases hor with hev | hev
    · unfold razorpayWebhook
      rw [hev, if_neg (by decide), if_pos (by decide), hpe]
      dsimp only
      rw [hres]
      exact ⟨rfl, rfl, rfl, rfl⟩
    · unfold razorpayWebhook
      rw [hev, if_neg (by decide), if_pos (by decide), hpe]
      dsimp only
      rw [hres]
      exact ⟨rfl, rfl, rfl, rfl⟩
  · intro db p aw hawb haw hfind
    unfold delhiveryWebhook
    rw [hawb]
    dsimp only
    rw [if_neg haw, hfind]

/-- Witness for C9 (amended): the three unresolvable-event shapes on
concrete databases. -/
theorem unresolved_webhook_events_witness :
    ((razorpayWebhook exWebhookDb rzEventLinkUnknown none).db.orders = exWebhookDb.orders
      ∧ (razorpayWebhook exWebhookDb rzEventLinkUnknown none).db.courier_events
          = exWebhookDb.courier_events ++ [⟨none, "razorpay", some "payment_link.paid"⟩]
      ∧ (razorpayWebhook exWebhookDb rzEventLinkUnknown none).httpStatus = 200
      ∧ (razorpayWebhook exWebhookDb rzEventLinkUnknown none).notifications = [])
  ∧ ((razorpayWebhook exWebhookDb rzEventCapturedUnknown none).db.orders = exWebhookDb.orders
      ∧ (razorpayWebhook exWebhookDb rzEventCapturedUnknown none).db.courier_events
          = exWebhookDb.courier_events
              ++ [⟨none, "razorpay", rzEventCapturedUnknown.event⟩]
      ∧ (razorpayWebhook exWebhookDb rzEventCapturedUnknown none).httpStatus = 200
      ∧ (razorpayWebhook exWebhookDb rzEventCapturedUnknown none).notifications = [])
  ∧ delhiveryWebhook exWebhookDb exUnknownAwbPayload
      = (exWebhookDb, DelhiveryResult.okNoOrder) :=
  ⟨unresolved_webhook_events.1 exWebhookDb rzEventLinkUnknown ⟨some "link_404", []⟩ none
     rfl rfl (by decide),
   unresolved_webhook_events.2.1 exWebhookDb rzEventCapturedUnknown
     ⟨some "pay_1", some "order_x", some 99⟩ none (Or.inl rfl) rfl (by decide),
   unresolved_webhook_events.2.2 exWebhookDb exUnknownAwbPayload "NOPE999"
     (by decide) (by decide) (by decide)⟩

/-! ## whatsapp-webhook conversation machine (`whatsapp-webhook/index.ts`)

The per-message state machine, modelled after the payload has been parsed
and the inbound message logged: input is the trimmed message body, the
sender's conversation record (absent means the initial state), the catalog
tables, and the outcome of the external create-order call; output is the
effect on the `whatsapp_conversations` record plus the number of outbound
sends. -/

/-- JS `parseInt(s, 10)` on a trimmed string: optional sign, then leading
decimal digits; `none` is NaN. -/
def jsParseIntM (s : String) : Option Int :=
  let digitsVal : List Char → Option Nat := fun cs =>
    let ds := cs.takeWhile Char.isDigit
    if ds.isEmpty then none
    else some (ds.foldl (fun acc c => acc * 10 + (c.toNat - '0'.toNat)) 0)
  match s.data with
  | '-' :: rest => (digitsVal rest).map (fun n => -(n : Int))
  | '+' :: rest => (digitsVal rest).map (fun n => (n : Int))
  | cs => (digitsVal cs).map (fun n => (n : Int))

/-- The regex `/^\d{4}$/`. -/
def is4Digit (s : String) : Bool := s.data.length == 4 && s.data.all Char.isDigit

/-- A row of the `schools` table read by the webhook
(`id, name, code_4digit, active`). -/
structure WaSchool where
  id : Nat
  name : String
  code_4digit : String
  active : Bool
  deriving Repr, DecidableEq

/-- A row of the `classes` table (`id, name`, filtered by `school_id`,
ordered by `sort_order`; the list order models the query order). -/
structure WaClassRow where
  id : Nat
  name : String
  school_id : Nat
  deriving Repr, DecidableEq

/-- A row of the `groups` table; `gtype` is the `type` column. -/
structure WaGroup where
  id : Nat
  name : String
  gtype : String
  deriving Repr, DecidableEq

/-- A row of `class_group_assignments`. -/
structure WaAssignment where
  class_id : Nat
  group_id : Nat
  deriving Repr, DecidableEq

/-- A row of the `items` table read by the webhook
(`id, title, price_paise, stock, active`, filtered by `group_id`). -/
structure WaItem where
  id : Nat
  title : String
  price_paise : Nat
  stock : Nat
  active : Bool
  group_id : Nat
  deriving Repr, DecidableEq

/-- The catalog tables the conversation machine reads. -/
structure WaDb where
  schools : List WaSchool
  classes : List WaClassRow
  groups : List WaGroup
  assignments : List WaAssignment
  items : List WaItem
  deriving Repr, DecidableEq

/-- The conversation `context` JSON object: every key that any state
writes, each optional (`none` = key absent). -/
structure ConvCtx where
  school_id : Option Nat
  school_name : Option String
  school_code : Option String
  classes : Option (List WaClassRow)
  selected_items : Option (List Nat)
  class_id : Option Nat
  class_name : Option String
  category : Option String
  items : Option (List WaItem)
  delivery_type : Option String
  address : Option String
  parent_name : Option String
  deriving Repr, DecidableEq

/-- The context of a fresh conversation (`{}`). -/
def emptyCtx : ConvCtx :=
  ⟨none, none, none, none, none, none, none, none, none, none, none, none⟩

/-- A `whatsapp_conversations` row for one sender. -/
structure Conversation where
  state : String
  context : ConvCtx
  deriving Repr, DecidableEq

/-- The effect of one inbound message on the sender's conversation row:
left untouched, upserted with a new state and context, or deleted. -/
inductive ConvEffect where
  | unchanged
  | saved (state : String) (context : ConvCtx)
  | deleted
  deriving Repr, DecidableEq

/-- Outcome of the external create-order call made on CONFIRM. -/
inductive OrderCallOutcome where
  | ok (order_id : Nat) (total_amount_paise : Nat) (payment_link : Option String)
  | failed (errorText : String)
  deriving Repr, DecidableEq

/-- One step of the conversation machine on the trimmed body text.
Returns the conversation effect and the number of outbound sends. -/
def waStep (db : WaDb) (conv : Option Conversation) (body : String)
    (orderCall : OrderCallOutcome) : ConvEffect × Nat :=
  let state := (conv.map (fun c => c.state)).getD "AWAIT_CODE"
  let context := (conv.map (fun c => c.context)).getD emptyCtx
  if strUpper body = "START" then
    (.deleted, 1)
  else if state = "AWAIT_CODE" then
    if !(is4Digit body) then (.unchanged, 1)
    else
      match db.schools.find? (fun s => s.code_4digit == body && s.active) with
      | none => (.unchanged, 1)
      | some school =>
        let classes := db.classes.filter (fun c => c.school_id == school.id)
        (.saved "AWAIT_CLASS"
          { context with
              school_id := some school.id,
              school_name := some school.name,
              school_code := some school.code_4digit,
              classes := some classes,
              selected_items := some [] }, 1)
  else if state = "AWAIT_CLASS" then
    match jsParseIntM body with
    | none => (.unchanged, 1)
    | some n =>
      let idx := n - 1
      match context.classes with
      | none => (.unchanged, 1)
      | some cls =>
        if idx < 0 then (.unchanged, 1)
        else
          match cls.get? idx.toNat with
          | none => (.unchanged, 1)
          | some chosen =>
            (.saved "AWAIT_CATEGORY"
              { context with class_id := some chosen.id, class_name := some chosen.name }, 1)
  else if state = "AWAIT_CATEGORY" then
    if ¬ (body = "1" ∨ body = "2") then (.unchanged, 1)
    else
      let category := if body = "1" then "books" else "stationery"
      let groups := db.groups.filter (fun g => g.gtype == category)
      let assignedIds : List Nat :=
        ((match context.class_id with
          | some cid => db.assignments.filter (fun a => a.class_id == cid)
          | none => ([] : List WaAssignment)) : List WaAssignment).map
          (fun a => a.group_id)
      let availableGroups := groups.filter (fun g => assignedIds.contains g.id)
      match availableGroups with
      | [] => (.unchanged, 1)
      | g :: _ =>
        let items := db.items.filter (fun it => it.group_id == g.id && it.active)
        (.saved "AWAIT_DELIVERY"
          { context with
              category := some category,
              items := some items,
              selected_items := some [] }, 1)
  else if state = "AWAIT_DELIVERY" then
    if ¬ (body = "1" ∨ body = "2") then (.unchanged, 1)
    else
      let delivery_type := if body = "1" then "school" else "home"
      let nextState := if delivery_type = "home" then "AWAIT_ADDRESS" else "AWAIT_CONFIRM"
      (.saved nextState { context with delivery_type := some delivery_type }, 1)
  else if state = "AWAIT_ADDRESS" then
    (.saved "AWAIT_CONFIRM" { context with address := some body }, 1)
  else if state = "AWAIT_CONFIRM" then
    if ¬ (strUpper body = "CONFIRM") then (.unchanged, 1)
    else if context.school_code = none then (.unchanged, 1)
    else
      let safeItems := ((context.items.getD []).take 3).map (fun it => ReqItem.mk it.id 1)
      if safeItems = [] then (.unchanged, 1)
      else
        match orderCall with
        | .failed _ => (.unchanged, 1)
        | .ok _ _ _ => (.deleted, 1)
  else
    (.unchanged, 1)

/-- The per-state validator implied by the branch guards of the source:
the condition under which the state machine advances past its input check
(catalog-dependent checks included for `AWAIT_CODE` and `AWAIT_CLASS`). -/
def waValidates (db : WaDb) (state : String) (context : ConvCtx) (body : String) : Bool :=
  if state = "AWAIT_CODE" then
    is4Digit body && (db.schools.find? (fun s => s.code_4digit == body && s.active)).isSome
  else if state = "AWAIT_CLASS" then
    match jsParseIntM body, context.classes with
    | some n, some cls => decide (0 ≤ n - 1) && (cls.get? (n - 1).toNat).isSome
    | _, _ => false
  else if state = "AWAIT_CATEGORY" then body == "1" || body == "2"
  else if state = "AWAIT_DELIVERY" then body == "1" || body == "2"
  else if state = "AWAIT_ADDRESS" then true
  else if state = "AWAIT_CONFIRM" then strUpper body == "CONFIRM"
  else false

/-- C7: an inbound message (other than the reset keyword) that fails the
validator of the sender's current state leaves the conversation row
untouched — no state change, no context change, no deletion — and sends
exactly one guidance prompt; and from every state the input "START"
deletes the conversation row, so the sender restarts at the default
AWAIT_CODE state. -/
theorem conversation_machine_safety :
    (∀ (db : WaDb) (conv : Option Conversation) (body : String) (oc : OrderCallOutcome),
        strUpper body ≠ "START" →
        waValidates db ((conv.map (fun c => c.state)).getD "AWAIT_CODE")
          ((conv.map (fun c => c.context)).getD emptyCtx) body = false →
        waStep db conv body oc = (ConvEffect.unchanged, 1))
  ∧ (∀ (db : WaDb) (conv : Option Conversation) (oc : OrderCallOutcome),
        waStep db conv "START" oc = (ConvEffect.deleted, 1)) := by
  constructor
  · intro db conv body oc hstart hval
    simp only [waStep]
    simp only [waValidates] at hval
    set st := (conv.map (fun c => c.state)).getD "AWAIT_CODE" with hst
    set ctx := (conv.map (fun c => c.context)).getD emptyCtx with hctx
    rw [if_neg hstart]
    by_cases h1 : st = "AWAIT_CODE"
    · rw [if_pos h1]
      rw [if_pos h1] at hval
      cases hd : is4Digit body with
      | false => simp [hd]
      | true =>
        rw [hd] at hval
        simp only [Bool.true_and] at hval
        cases hfind : db.schools.find? (fun s => s.code_4digit == body && s.active) with
        | none => simp [hd, hfind]
        | some sc => rw [hfind] at hval; simp at hval
    · rw [if_neg h1]
      rw [if_neg h1] at hval
      by_cases h2 : st = "AWAIT_CLASS"
      · rw [if_pos h2]
        rw [if_pos h2] at hval
        cases hp : jsParseIntM body with
        | none => simp [hp]
        | some n =>
          cases hc : ctx.classes with
          | none => simp [hp, hc]
          | some cls =>
            rw [hp, hc] at hval
            dsimp only at hval
            dsimp only
            by_cases hneg : n - 1 < 0
            · rw [if_pos hneg]
            · rw [if_neg hneg]
              have hge : 0 ≤ n - 1 := Int.not_lt.mp hneg
              rw [decide_eq_true hge, Bool.true_and] at hval
              cases hg : cls.get? (n - 1).toNat with
              | none => rfl
              | some chosen => rw [hg] at hval; simp at hval
      · rw [if_neg h2]
        rw [if_neg h2] at hval
        by_cases h3 : st = "AWAIT_CATEGORY"
        · rw [if_pos h3]
          rw [if_pos h3] at hval
          simp only [Bool.or_eq_false_iff, beq_eq_false_iff_ne, ne_eq] at hval
          rw [if_pos (not_or.mpr ⟨hval.1, hval.2⟩)]
        · rw [if_neg h3]
          rw [if_neg h3] at hval
          by_cases h4 : st = "AWAIT_DELIVERY"
          · rw [if_pos h4]
            rw [if_pos h4] at hval
            simp only [Bool.or_eq_false_iff, beq_eq_false_iff_ne, ne_eq] at hval
            rw [if_pos (not_or.mpr ⟨hval.1, hval.2⟩)]
          · rw [if_neg h4]
            rw [if_neg h4] at hval
            by_cases h5 : st = "AWAIT_ADDRESS"
            · rw [if_pos h5] at hval
              simp at hval
            · rw [if_neg h5]
              rw [if_neg h5] at hval
              by_cases h6 : st = "AWAIT_CONFIRM"
              · rw [if_pos h6]
                rw [if_pos h6] at hval
                simp only [beq_eq_false_iff_ne, ne_eq] at hval
                rw [if_pos hval]
              · rw [if_neg h6]
  · intro db conv oc
    simp only [waStep]
    rw [if_pos (show strUpper "START" = "START" by decide)]

/-- A concrete conversation in AWAIT_DELIVERY with a populated context. -/
def exConv : Conversation :=
  ⟨"AWAIT_DELIVERY",
   { emptyCtx with
      school_id := some 7,
      school_name := some "Test School",
      school_code := some "1234",
      classes := some [⟨3, "Class 5", 7⟩],
      class_id := some 3,
      class_name := some "Class 5",
      category := some "books",
      items := some [⟨1, "Maths", 10000, 5, true, 9⟩] }⟩

/-- An empty catalog (the invalid-input branches read no catalog rows). -/
def exWaDb : WaDb := ⟨[], [], [], [], []⟩

/-- Witness for C7: the invalid reply "7" in AWAIT_DELIVERY leaves the
conversation untouched with one guidance prompt, and "START" deletes it. -/
theorem conversation_machine_safety_witness :
    waStep exWaDb (some exConv) "7" (OrderCallOutcome.failed "x")
      = (ConvEffect.unchanged, 1)
  ∧ waStep exWaDb (some exConv) "START" (OrderCallOutcome.failed "x")
      = (ConvEffect.deleted, 1) :=
  ⟨conversation_machine_safety.1 exWaDb (some exConv) "7"
     (OrderCallOutcome.failed "x") (by decide) (by decide),
   conversation_machine_safety.2 exWaDb (some exConv) (OrderCallOutcome.failed "x")⟩
